import Mathlib

/-!
Shallow embedding of the LIVIA Enhanced Discord Activity repository:
the Express session backend (src/livia-backend/server.js) and the
Electron tray client polling loop (src/livia-app/src/auto-launch.js).

JavaScript conventions used throughout the embedding:
- `Option α` with `none` models an absent (`undefined`) JSON field or a
  `null` value where the source only ever distinguishes defined/undefined.
- Timestamps are integers in milliseconds, positions and durations are
  integers in seconds, mirroring `Date.now()` and the media APIs.
- `Math.floor(x / 1000)` on an integer `x` is `Int.fdiv x 1000`.
- JavaScript truthiness for the values the source tests is made explicit
  by the helper functions below (empty string, `0` and `null`/`undefined`
  are falsy).
-/

set_option autoImplicit false

namespace Livia

/-- The JavaScript `String.prototype.toLowerCase` method on the ASCII
strings handled by this program, as a map over the character list. -/
def jsToLower (s : String) : String := ⟨s.data.map Char.toLower⟩

/-- The JavaScript `String.prototype.trim` method: whitespace characters
are removed from both ends. -/
def jsTrim (s : String) : String :=
  ⟨((s.data.dropWhile Char.isWhitespace).reverse.dropWhile
      Char.isWhitespace).reverse⟩

/-- The JavaScript `String.prototype.startsWith` test. -/
def jsStartsWith (s pre : String) : Bool := pre.data.isPrefixOf s.data

/-- Dropping the first `n` characters of a string. -/
def jsDrop (s : String) (n : Nat) : String := ⟨s.data.drop n⟩

/-- JavaScript truthiness of a possibly-missing string: `none` (undefined or
null) and the empty string are falsy. -/
def strFalsy : Option String → Bool
  | none => true
  | some s => s == ""

/-- `a || b` where both sides are possibly-missing strings. -/
def jsOrStr (a : Option String) (fb : Option String) : Option String :=
  match a with
  | some v => if v == "" then fb else some v
  | none => fb

/-- `a || d` with a string default literal. -/
def strOrD (a : Option String) (d : String) : String :=
  match a with
  | some v => if v == "" then d else v
  | none => d

/-- `a || null` for a string value: empty and missing collapse to null. -/
def strOrNull (a : Option String) : Option String :=
  match a with
  | some v => if v == "" then none else some v
  | none => none

/-- `a || 0` for a possibly-missing number (`0` is falsy so it maps to `0`). -/
def intOr0 (a : Option Int) : Int :=
  match a with
  | some v => v
  | none => 0

/-- `a || fb` where `a` is a possibly-missing number and `fb` a number. -/
def jsOrInt (a : Option Int) (fb : Int) : Int :=
  match a with
  | some v => if v = 0 then fb else v
  | none => fb

/-- `a || fb` for possibly-missing numbers on both sides. -/
def jsOrIntOpt (a : Option Int) (fb : Option Int) : Option Int :=
  match a with
  | some v => if v = 0 then fb else some v
  | none => fb

/-- `a || null` for a number. -/
def intOrNull (a : Option Int) : Option Int :=
  match a with
  | some v => if v = 0 then none else some v
  | none => none

/-- Truthiness of a possibly-missing number (used on millisecond timestamps
such as `session.lastPlayStart` and on position and duration reads): `null`,
`undefined` and `0` are falsy. -/
def numTruthy : Option Int → Bool
  | none => false
  | some v => v != 0

/-- Truthiness of a possibly-missing boolean (`playing ? a : b` where
`playing` may be absent from the request body). -/
def boolTruthy : Option Bool → Bool
  | none => false
  | some b => b

/-- `ensureHttps` (server.js:13-16): falsy input returned unchanged, else the
leading `http://` is rewritten to `https://`. -/
def ensureHttps : Option String → Option String
  | none => none
  | some u =>
      some (if jsStartsWith u "http://" then "https://" ++ jsDrop u 7 else u)

/-- A value stored after writing `ensureHttps(x) || ""`. -/
def httpsOrEmpty (x : Option String) : String :=
  strOrD (ensureHttps x) ""

/-- A value stored after writing `ensureHttps(x) || null`. -/
def httpsOrNull (x : Option String) : Option String :=
  strOrNull (ensureHttps x)

/-- Discord user data attached to a session (server.js:251-256). -/
structure User where
  id : String
  username : String
  displayName : String
  avatarUrl : String
deriving Repr, DecidableEq

/-- One entry of the in-memory session table `sessions` (server.js:236-265). -/
structure Session where
  app : String
  albumArt : String
  currentSong : Option String
  currentArtist : Option String
  album : Option String
  active : Bool
  playing : Bool
  songPosition : Int
  songDuration : Int
  lastPlayStart : Option Int
  totalPlayTime : Int
  createdAt : Int
  lastUpdated : Int
  user : Option User
  genre : Option String
  year : Option Int
  label : Option String
  trackCount : Option Int
  albumDescription : Option String
  artistBio : Option String
  artistImage : Option String
deriving Repr, DecidableEq

/-- One entry of the persistent history log (server.js:60-82). -/
structure HistoryEntry where
  id : String
  song : String
  artist : String
  album : String
  albumArt : String
  app : String
  duration : Int
  playedAt : Int
  playCount : Int
  user : Option User
  genre : Option String
  year : Option Int
  label : Option String
  artistImage : Option String
deriving Repr, DecidableEq

/-- The argument object passed to `addToHistory` (server.js:49-50). -/
structure TrackData where
  song : Option String
  artist : Option String
  album : Option String
  albumArt : Option String
  app : Option String
  duration : Option Int
  user : Option User
  genre : Option String
  year : Option Int
  label : Option String
  artistImage : Option String
deriving Repr, DecidableEq

/-- `MAX_HISTORY_ITEMS` (server.js:24). -/
def MAX_HISTORY_ITEMS : Nat := 50

/-- `addToHistory` (server.js:49-91). The history list is filtered to remove
any entry with the same id, then the new entry is prepended; the playCount
lookup `history.find(...)` runs on the already-filtered list, exactly as in
the source, where `history` has been reassigned on line 57 before the
`unshift` argument on lines 60-82 is evaluated. -/
def addToHistory (hist : List HistoryEntry) (t : TrackData) (now : Int) :
    List HistoryEntry :=
  if strFalsy t.song || strFalsy t.artist then hist
  else
    let song := t.song.getD ""
    let artist := t.artist.getD ""
    let trackId := jsToLower song ++ "-" ++ jsToLower artist
    let filtered := hist.filter (fun e => e.id != trackId)
    let prevCount : Int :=
      (((filtered.find? (fun e => e.id == trackId)).map
        (fun e => e.playCount)).getD 0)
    let entry : HistoryEntry :=
      { id := trackId
        song := song
        artist := artist
        album := strOrD t.album ""
        albumArt := httpsOrEmpty t.albumArt
        app := strOrD t.app "Unknown"
        duration := intOr0 t.duration
        playedAt := now
        playCount := prevCount + 1
        user := t.user
        genre := strOrNull t.genre
        year := intOrNull t.year
        label := strOrNull t.label
        artistImage := httpsOrNull t.artistImage }
    (entry :: filtered).take MAX_HISTORY_ITEMS

/-- The body of a `POST /session` request, with the fields destructured on
server.js:209-226. `none` is an absent field. Note that `artistImage` is not
among the destructured fields, although server.js:264 reads a variable of
that name. -/
structure PostBody where
  app : Option String
  song : Option String
  artist : Option String
  album : Option String
  albumArt : Option String
  duration : Option Int
  position : Option Int
  playing : Option Bool
  user : Option User
  genre : Option String
  year : Option Int
  label : Option String
  trackCount : Option Int
  albumDescription : Option String
  artistBio : Option String
deriving Repr, DecidableEq

/-- Result of a session endpoint call. `referenceError` stands for an
uncaught synchronous `ReferenceError` thrown inside the handler, which
the Express default error handler turns into a 500 response. -/
inductive ApiResult where
  | badRequest
  | notFound
  | gone
  | referenceError
  | created (sessionId : String) (url : String)
  | ok (sessionId : String)
deriving Repr, DecidableEq

/-- The in-memory session table `sessions` (server.js:10). -/
def SessionStore : Type := String → Option Session

/-- The empty session table. -/
def emptyStore : SessionStore := fun _ => none

/-- `POST /session` (server.js:205-284). After the `if (!app)` check the
handler builds the session object literal on lines 236-265; evaluating the
property `artistImage: ensureHttps(artistImage) || null` on line 264 reads
the identifier `artistImage`, which is not among the variables destructured
from `req.body` on lines 209-226 and is not defined in any enclosing scope,
so the handler throws a `ReferenceError` before `sessions[id]` is assigned
and before `addToHistory` on line 280 can run. Express converts the
synchronous throw into a 500 response; no session is stored and no history
entry is appended. -/
def postSession (store : SessionStore) (hist : List HistoryEntry)
    (body : PostBody) (_id : String) (_now : Int) :
    ApiResult × SessionStore × List HistoryEntry :=
  if strFalsy body.app then (ApiResult.badRequest, store, hist)
  else (ApiResult.referenceError, store, hist)

/-- The body of a `PUT /session/:id` request (fields destructured on
server.js:308-312). `none` is an absent field. -/
structure PutBody where
  song : Option String
  artist : Option String
  album : Option String
  albumArt : Option String
  playing : Option Bool
  duration : Option Int
  position : Option Int
  genre : Option String
  year : Option Int
  label : Option String
  trackCount : Option Int
  albumDescription : Option String
  artistBio : Option String
  artistImage : Option String
deriving Repr, DecidableEq

/-- A `PUT` body with every field absent. -/
def emptyPutBody : PutBody :=
  { song := none, artist := none, album := none, albumArt := none
    playing := none, duration := none, position := none, genre := none
    year := none, label := none, trackCount := none
    albumDescription := none, artistBio := none, artistImage := none }

/-- `updateSongPosition` (server.js:287-294): while playing with a truthy
anchor, flush the elapsed whole seconds into `songPosition` and
`totalPlayTime` and re-anchor `lastPlayStart` to the current time. -/
def updateSongPosition (s : Session) (now : Int) : Session :=
  if s.playing && numTruthy s.lastPlayStart then
    let elapsed := (now - s.lastPlayStart.getD 0).fdiv 1000
    { s with
      songPosition := s.songPosition + elapsed
      totalPlayTime := s.totalPlayTime + elapsed
      lastPlayStart := some now }
  else s

/-- `const songChanged = song !== undefined && song !== session.currentSong`
(server.js:315). -/
def songChangedOf (s : Session) (b : PutBody) : Bool :=
  match b.song with
  | some v => s.currentSong != some v
  | none => false

/-- The body of the `PUT /session/:id` handler after the 404 and 410 guards
(server.js:308-387), acting on one active session and the history list.
The steps mirror the source in order: the explicit-position anchor
(lines 318-321) or elapsed-time advance (lines 323-325), the song-change
reset and history append (lines 328-352), the partial field updates
(lines 355-368), the play-state toggle (lines 371-383) and the
`lastUpdated` stamp (line 385). -/
def putActive (s : Session) (b : PutBody) (now : Int)
    (hist : List HistoryEntry) : Session × List HistoryEntry :=
  let songChanged := songChangedOf s b
  let s1 :=
    match b.position with
    | some p =>
        { s with
          songPosition := p
          lastPlayStart := if boolTruthy b.playing then some now else none }
    | none => if songChanged then s else updateSongPosition s now
  let step2 :=
    if songChanged then
      let s2 :=
        { s1 with
          songPosition := if b.position.isNone then 0 else s1.songPosition
          lastPlayStart := if boolTruthy b.playing then some now else none }
      let td : TrackData :=
        { song := b.song
          artist := jsOrStr b.artist s1.currentArtist
          album := jsOrStr b.album s1.album
          albumArt := jsOrStr b.albumArt (some s1.albumArt)
          app := some s1.app
          duration := some (jsOrInt b.duration s1.songDuration)
          user := s1.user
          genre := jsOrStr b.genre s1.genre
          year := jsOrIntOpt b.year s1.year
          label := jsOrStr b.label s1.label
          artistImage := jsOrStr b.artistImage s1.artistImage }
      (s2, addToHistory hist td now)
    else (s1, hist)
  let s2 := step2.1
  let hist1 := step2.2
  let s3 :=
    { s2 with
      currentSong := match b.song with | some v => some v | none => s2.currentSong
      currentArtist := match b.artist with | some v => some v | none => s2.currentArtist
      album := match b.album with | some v => some v | none => s2.album
      albumArt := b.albumArt.getD s2.albumArt
      songDuration := b.duration.getD s2.songDuration
      genre := match b.genre with | some v => some v | none => s2.genre
      year := match b.year with | some v => some v | none => s2.year
      label := match b.label with | some v => some v | none => s2.label
      trackCount := match b.trackCount with | some v => some v | none => s2.trackCount
      albumDescription := match b.albumDescription with | some v => some v | none => s2.albumDescription
      artistBio := match b.artistBio with | some v => some v | none => s2.artistBio
      artistImage := match b.artistImage with | some v => httpsOrNull (some v) | none => s2.artistImage }
  let s4 :=
    match b.playing with
    | none => s3
    | some p =>
        if songChanged then s3
        else
          let s' :=
            if p && !s3.playing then { s3 with lastPlayStart := some now }
            else if !p && s3.playing then
              let su := updateSongPosition s3 now
              { su with lastPlayStart := none }
            else s3
          { s' with playing := p }
  ({ s4 with lastUpdated := now }, hist1)

/-- `PUT /session/:id` (server.js:297-388): 404 when the id is not in the
table, 410 when the session has ended, otherwise the active-session update
runs and the table is rewritten at that id. -/
def putSession (store : SessionStore) (hist : List HistoryEntry)
    (id : String) (b : PutBody) (now : Int) :
    ApiResult × SessionStore × List HistoryEntry :=
  match store id with
  | none => (ApiResult.notFound, store, hist)
  | some s =>
      if !s.active then (ApiResult.gone, store, hist)
      else
        let r := putActive s b now hist
        (ApiResult.ok id, fun k => if k = id then some r.1 else store k, r.2)

/-- `DELETE /session/:id` (server.js:391-410): flush the position one last
time, then mark the session inactive and paused. -/
def deleteSession (store : SessionStore) (id : String) (now : Int) :
    ApiResult × SessionStore :=
  match store id with
  | none => (ApiResult.notFound, store)
  | some s =>
      let s1 := updateSongPosition s now
      let s2 := { s1 with active := false, playing := false, lastPlayStart := none }
      (ApiResult.ok id, fun k => if k = id then some s2 else store k)

/-- The real-time position computed by `GET /session/:id`
(server.js:421-430): the stored position, advanced by the elapsed whole
seconds while playing with a truthy anchor, clamped by `Math.min` to the
duration when the duration is positive. -/
def getPosition (s : Session) (now : Int) : Int :=
  let base := s.songPosition
  let cur :=
    if s.playing && numTruthy s.lastPlayStart then
      base + (now - s.lastPlayStart.getD 0).fdiv 1000
    else base
  if s.songDuration > 0 then min cur s.songDuration else cur

/-- The response view built by `GET /session/:id` (server.js:413-454),
restricted to the computed fields. -/
structure GetResponse where
  position : Int
  duration : Int
  totalPlayTime : Int
  status : String
deriving Repr, DecidableEq

/-- `GET /session/:id` (server.js:413-454): 404 when unknown, otherwise the
live view with the real-time position, the stored duration, the accumulated
play time and the derived status string. -/
def getSession (store : SessionStore) (id : String) (now : Int) :
    Option GetResponse :=
  (store id).map fun s =>
    { position := getPosition s now
      duration := s.songDuration
      totalPlayTime :=
        s.totalPlayTime +
          (if s.playing && numTruthy s.lastPlayStart then
            (now - s.lastPlayStart.getD 0).fdiv 1000
          else 0)
      status := if s.active then (if s.playing then "playing" else "paused") else "stopped" }

/-! ## Client model (src/livia-app/src/auto-launch.js) -/

/-- One media snapshot from `mediaDetector.getCurrentMedia()`. `position`
and `duration` are `none` when the detector reports no value. -/
structure Media where
  title : String
  artist : String
  album : Option String
  state : String
  position : Option Int
  duration : Option Int
deriving Repr, DecidableEq

/-- `isPlaceholder` (auto-launch.js:933-943): falsy text is a placeholder;
otherwise the lowercased, trimmed text must match one of six literals, or
the raw text must be shorter than two characters. -/
def isPlaceholder (text : String) : Bool :=
  if text == "" then true
  else
    let lower := jsTrim (jsToLower text)
    lower == "connecting..." ||
    lower == "loading..." ||
    lower == "buffering..." ||
    lower == "unknown" ||
    lower == "advertisement" ||
    lower == "ad" ||
    decide (text.length < 2)

/-- The song identity key built on auto-launch.js:681:
the raw template string `title|artist`, with no normalization. -/
def songIdOf (m : Media) : String := m.title ++ "|" ++ m.artist

/-- The Discord activity timestamps computed by `setDiscordPresence`
(auto-launch.js:874-890): the start anchor is `now` minus the position in
milliseconds when the position is truthy, the end is start plus the
duration in milliseconds when the duration is truthy; both are sent floored
to seconds, and a falsy end timestamp is omitted. -/
structure PresenceTimestamps where
  start : Int
  endTs : Option Int
deriving Repr, DecidableEq

/-- The timestamp pair computed by one `setDiscordPresence(media)` call at
wall-clock time `now` (auto-launch.js:874-890). -/
def presenceOf (m : Media) (now : Int) : PresenceTimestamps :=
  let startTimestamp :=
    if numTruthy m.position then now - (m.position.getD 0) * 1000 else now
  let endTimestamp : Option Int :=
    if numTruthy m.duration then some (startTimestamp + (m.duration.getD 0) * 1000)
    else none
  { start := startTimestamp.fdiv 1000
    endTs :=
      match endTimestamp with
      | some e => if e != 0 then some (e.fdiv 1000) else none
      | none => none }

/-- The module-level metadata globals set from the album-info fetch in the
song-changed branch (auto-launch.js:205-219, 697-711). -/
structure CleanedMeta where
  lastAlbumArtUrl : Option String
  lastAlbumName : Option String
  lastCleanedSong : Option String
  lastCleanedArtist : Option String
  lastGenre : Option String
  lastYear : Option Int
  lastLabel : Option String
  lastTrackCount : Option Int
  lastAlbumDescription : Option String
  lastArtistBio : Option String
  lastArtistImage : Option String
deriving Repr, DecidableEq

/-- The result object of `albumArtFetcher.getAlbumInfo` consumed on
auto-launch.js:691-711. -/
structure AlbumInfo where
  artUrl : Option String
  albumName : Option String
  cleanedSong : Option String
  cleanedArtist : Option String
  genre : Option String
  year : Option Int
  label : Option String
  trackCount : Option Int
  albumDescription : Option String
  artistBio : Option String
  artistImage : Option String
deriving Repr, DecidableEq

/-- The global-variable updates on auto-launch.js:697-711. -/
def applyAlbumInfo (info : AlbumInfo) (m : Media) : CleanedMeta :=
  { lastAlbumArtUrl := info.artUrl
    lastAlbumName := jsOrStr info.albumName m.album
    lastCleanedSong := jsOrStr info.cleanedSong (some m.title)
    lastCleanedArtist := jsOrStr info.cleanedArtist (some m.artist)
    lastGenre := strOrNull info.genre
    lastYear := intOrNull info.year
    lastLabel := strOrNull info.label
    lastTrackCount := intOrNull info.trackCount
    lastAlbumDescription := strOrNull info.albumDescription
    lastArtistBio := strOrNull info.artistBio
    lastArtistImage := strOrNull info.artistImage }

/-- The JSON payload built by the client `updateSession` call
(auto-launch.js:834-850). Every field is present in the serialized body;
the `Option` fields carry JSON null when `none`. -/
structure ClientUpdatePayload where
  song : String
  artist : String
  album : String
  albumArt : String
  duration : Int
  position : Int
  playing : Bool
  genre : Option String
  year : Option Int
  label : Option String
  trackCount : Option Int
  albumDescription : Option String
  artistBio : Option String
  artistImage : Option String
deriving Repr, DecidableEq

/-- The payload of one client `PUT /session/:id` (auto-launch.js:834-850):
cleaned metadata falls back to the raw snapshot fields, and the duration
and position sent are the current poll reads with `|| 0` defaults; no
retry, backoff or cached duration appears anywhere in the client state
(auto-launch.js:202-219). -/
def clientUpdatePayload (meta : CleanedMeta) (m : Media) (isPlaying : Bool) :
    ClientUpdatePayload :=
  { song := strOrD meta.lastCleanedSong m.title
    artist := strOrD meta.lastCleanedArtist m.artist
    album := strOrD (jsOrStr meta.lastAlbumName m.album) ""
    albumArt := strOrD meta.lastAlbumArtUrl ""
    duration := intOr0 m.duration
    position := intOr0 m.position
    playing := isPlaying
    genre := meta.lastGenre
    year := meta.lastYear
    label := meta.lastLabel
    trackCount := meta.lastTrackCount
    albumDescription := meta.lastAlbumDescription
    artistBio := meta.lastArtistBio
    artistImage := meta.lastArtistImage }

/-- The mutable client state owned by the polling loop
(auto-launch.js:202-219), with the published Discord activity timestamps
(`none` = presence cleared). -/
structure ClientState where
  currentSessionId : Option String
  currentSessionUrl : String
  lastSongId : String
  lastPlayingState : Bool
  meta : CleanedMeta
  presence : Option PresenceTimestamps
deriving Repr, DecidableEq

/-- The no-media branch of the main loop (auto-launch.js:764-778): when a
session or a remembered song exists, the session is ended, the state is
reset and the presence is cleared. -/
def loopIterNoMedia (st : ClientState) : ClientState :=
  if st.currentSessionId.isSome || st.lastSongId != "" then
    { st with
      currentSessionId := none
      currentSessionUrl := "https://livia.mom/"
      lastSongId := ""
      lastPlayingState := false
      presence := none }
  else st

/-- One iteration of the main polling loop restricted to its state effects
(auto-launch.js:671-787). `info` is the result of the album-info fetch that
runs in the song-changed branch and `createResult` is the session id
returned by `createSession` when that call runs (`none` on failure); both
stand for awaited external calls. A snapshot with falsy or placeholder
title takes the no-media branch. Inside the valid branch the song-changed
block (685-738) runs first and updates `lastSongId`, the metadata globals,
the session id and, while playing, the presence timestamps; the play-state
block (741-757) then compares against the unchanged `lastPlayingState`
global and republishes or clears the presence; the heartbeat (760-762)
issues a network call only. -/
def loopIter (st : ClientState) (media? : Option Media) (info : AlbumInfo)
    (createResult : Option String) (now : Int) : ClientState :=
  match media? with
  | none => loopIterNoMedia st
  | some m =>
      if !(m.title == "") && !isPlaceholder m.title then
        let songId := songIdOf m
        let isPlaying := m.state == "playing"
        let st1 :=
          if songId != st.lastSongId then
            let st' := { st with lastSongId := songId, meta := applyAlbumInfo info m }
            let st' :=
              match st'.currentSessionId with
              | none =>
                  match createResult with
                  | some sid =>
                      { st' with
                        currentSessionId := some sid
                        currentSessionUrl := "https://livia.mom/s/" ++ sid }
                  | none => st'
              | some _ => st'
            if isPlaying then { st' with presence := some (presenceOf m now) } else st'
          else st
        if isPlaying != st1.lastPlayingState then
          let st' := { st1 with lastPlayingState := isPlaying }
          if isPlaying then { st' with presence := some (presenceOf m now) }
          else { st' with presence := none }
        else st1
      else loopIterNoMedia st

/-! ## Concrete instances used by the witnesses and counterexamples -/

/-- An active, playing session as created while a track is running. -/
def baseSession : Session :=
  { app := "Spotify"
    albumArt := ""
    currentSong := some "Old Song"
    currentArtist := some "Queen"
    album := some "A Night at the Opera"
    active := true
    playing := true
    songPosition := 50
    songDuration := 355
    lastPlayStart := some 1000000
    totalPlayTime := 50
    createdAt := 0
    lastUpdated := 0
    user := none
    genre := none
    year := none
    label := none
    trackCount := none
    albumDescription := none
    artistBio := none
    artistImage := none }

/-- A `POST /session` body with the required `app` field and initial song
data, as sent by the clients. -/
def c1Body : PostBody :=
  { app := some "Spotify"
    song := some "Paranoid Android"
    artist := some "Radiohead"
    album := none
    albumArt := none
    duration := some 383
    position := some 0
    playing := some true
    user := none
    genre := none
    year := none
    label := none
    trackCount := none
    albumDescription := none
    artistBio := none }

/-- A freshly created playing session with duration 180 and position 0. -/
def c2Session : Session :=
  { baseSession with
    currentSong := some "Some Song"
    songPosition := 0
    songDuration := 180 }

/-- A one-session table holding `c2Session` under id `abc12345`. -/
def c2Store : SessionStore :=
  fun k => if k = "abc12345" then some c2Session else none

/-- A `PUT` body carrying an explicit negative position while paused. -/
def c2NegBody : PutBody :=
  { emptyPutBody with position := some (-200), playing := some false }

/-- A heartbeat `PUT` body: playing, no song, no explicit position. -/
def hbBody : PutBody := { emptyPutBody with playing := some true }

/-- A history list already holding the target track with playCount 2. -/
def c4Hist : List HistoryEntry :=
  [{ id := "bohemian rhapsody-queen"
     song := "Bohemian Rhapsody"
     artist := "Queen"
     album := ""
     albumArt := ""
     app := "Spotify"
     duration := 355
     playedAt := 500
     playCount := 2
     user := none
     genre := none
     year := none
     label := none
     artistImage := none }]

/-- A song-change `PUT` body without an explicit position. -/
def c4Body : PutBody :=
  { emptyPutBody with
    song := some "Bohemian Rhapsody"
    artist := some "Queen"
    playing := some true }

/-- A song-change `PUT` body that carries `playing: false`. -/
def c10Body : PutBody :=
  { emptyPutBody with
    song := some "New Song"
    playing := some false }

/-- An ended session. -/
def c9Session : Session := { baseSession with active := false }

/-- A one-session table holding the ended `c9Session`. -/
def c9Store : SessionStore :=
  fun k => if k = "abc12345" then some c9Session else none

/-- Client metadata globals in their initial (all null) state. -/
def noMeta : CleanedMeta :=
  { lastAlbumArtUrl := none
    lastAlbumName := none
    lastCleanedSong := none
    lastCleanedArtist := none
    lastGenre := none
    lastYear := none
    lastLabel := none
    lastTrackCount := none
    lastAlbumDescription := none
    lastArtistBio := none
    lastArtistImage := none }

/-- An album-info fetch result with no data. -/
def noInfo : AlbumInfo :=
  { artUrl := none
    albumName := none
    cleanedSong := none
    cleanedArtist := none
    genre := none
    year := none
    label := none
    trackCount := none
    albumDescription := none
    artistBio := none
    artistImage := none }

/-- A playing snapshot of the track Hello by Adele at position 10s of 180s. -/
def mediaHello : Media :=
  { title := "Hello"
    artist := "Adele"
    album := none
    state := "playing"
    position := some 10
    duration := some 180 }

/-- The same snapshot with the title in a different casing. -/
def mediaHelloLower : Media := { mediaHello with title := "hello" }

/-- Client state that already tracks `mediaHello` while playing, with a
published presence pair. -/
def stHello : ClientState :=
  { currentSessionId := some "sess1"
    currentSessionUrl := "https://livia.mom/s/sess1"
    lastSongId := "Hello|Adele"
    lastPlayingState := true
    meta := noMeta
    presence := some { start := 990, endTs := some 1170 } }

/-- Client state tracking a different song, with no presence published. -/
def stOther : ClientState :=
  { stHello with
    lastSongId := "Other|Artist"
    lastPlayingState := false
    presence := none }

/-- A second snapshot of the same track with identical title and artist but
a later position. -/
def mediaHelloDup : Media := { mediaHello with position := some 20 }

/-- A snapshot whose current poll reads duration 0 (a transient zero read
from the media API). -/
def mediaZeroDuration : Media :=
  { title := "Song"
    artist := "Artist"
    album := none
    state := "playing"
    position := some 10
    duration := some 0 }

/-! ## Theorems -/

/-- Range of the floored millisecond-to-second conversion
`Math.floor(x / 1000)`. -/
theorem fdiv1000_bounds (a : Int) :
    1000 * (a.fdiv 1000) ≤ a ∧ a < 1000 * (a.fdiv 1000) + 1000 := by
  rw [Int.fdiv_eq_ediv a (by norm_num)]
  have h := Int.ediv_add_emod a 1000
  have h1 := Int.emod_nonneg a (by norm_num : (1000 : Int) ≠ 0)
  have h2 := Int.emod_lt_of_pos a (by norm_num : (0 : Int) < 1000)
  omega

/-- One heartbeat `PUT` (no song field, no explicit position, playing) on a
playing anchored session flushes the elapsed whole seconds into the stored
position exactly once and re-anchors `lastPlayStart` to the request time
(server.js:287-294 via server.js:323-325). -/
theorem putActive_heartbeat (s : Session) (b : PutBody) (now t : Int)
    (hsong : b.song = none) (hpos : b.position = none)
    (hplay : b.playing = some true) (hsplay : s.playing = true)
    (hanchor : s.lastPlayStart = some t) (ht : t ≠ 0) :
    (putActive s b now []).1.songPosition = s.songPosition + (now - t).fdiv 1000
  ∧ (putActive s b now []).1.lastPlayStart = some now
  ∧ (putActive s b now []).1.playing = true := by
  have hnt : numTruthy (some t) = true := by
    simp [numTruthy, bne_iff_ne, ht]
  have hsc : songChangedOf s b = false := by simp [songChangedOf, hsong]
  simp [putActive, hsc, hpos, hplay, updateSongPosition, hsplay, hnt, hanchor]

/-- C1: every `POST /session` whose body carries the required `app` field is
claimed to respond 200 with `{sessionId, url}` and store a new active
session. On the code, building the session object throws a `ReferenceError`
(the undeclared identifier `artistImage` is read on server.js:264), so the
handler produces a 500 and neither the session table nor the history
changes. -/
theorem c1_post_with_app_throws :
    postSession emptyStore [] c1Body "abc12345" 1700000000000
      = (ApiResult.referenceError, emptyStore, [])
  ∧ ((postSession emptyStore [] c1Body "abc12345" 1700000000000).1
        == ApiResult.created "abc12345" "/s/abc12345") = false := by
  exact ⟨rfl, rfl⟩

/-- C9: a `PUT /session/:id` on a stored but ended session answers 410 and
leaves the whole store and the history untouched, and the 404 answer occurs
exactly when the id names no stored session. -/
theorem c9_put_inactive_rejected_atomically (store : SessionStore)
    (hist : List HistoryEntry) (id : String) (b : PutBody) (now : Int) :
    (∀ s, store id = some s → s.active = false →
      putSession store hist id b now = (ApiResult.gone, store, hist))
  ∧ ((putSession store hist id b now).1 = ApiResult.notFound ↔ store id = none) := by
  constructor
  · intro s hs hact
    simp [putSession, hs, hact]
  · cases h : store id with
    | none => simp [putSession, h]
    | some s =>
        by_cases ha : s.active <;> simp [putSession, h, ha]

/-- Witness for C9 at a concrete store: the `PUT` on the ended session
under `abc12345` is rejected with 410 without any state change, and a
lookup of an unknown id is the 404 case. -/
theorem c9_put_inactive_rejected_atomically_witness :
    putSession c9Store [] "abc12345" hbBody 5000000
      = (ApiResult.gone, c9Store, [])
  ∧ ((putSession c9Store [] "missing" hbBody 5000000).1 = ApiResult.notFound
      ↔ c9Store "missing" = none) :=
  ⟨(c9_put_inactive_rejected_atomically c9Store [] "abc12345" hbBody 5000000).1
      c9Session (by decide) (by decide),
   (c9_put_inactive_rejected_atomically c9Store [] "missing" hbBody 5000000).2⟩

/-- C10: on a `PUT` whose body changes the song, the request `playing`
field is never applied to the stored flag (server.js:371 guards the
play-state update with `!songChanged`); in particular a song-change `PUT`
carrying `playing: false` on a playing session keeps `playing = true`
while `lastPlayStart` becomes null (server.js:336). -/
theorem c10_song_change_ignores_playing (s : Session) (b : PutBody)
    (now : Int) (hist : List HistoryEntry) (v : String)
    (hsong : b.song = some v) (hchanged : s.currentSong ≠ some v) :
    ((putActive s b now hist).1.playing = s.playing)
  ∧ (b.playing = some false → s.playing = true →
       (putActive s b now hist).1.playing = true
     ∧ (putActive s b now hist).1.lastPlayStart = none) := by
  have hsc : songChangedOf s b = true := by
    simp [songChangedOf, hsong, bne_iff_ne, hchanged]
  constructor
  · cases hpos : b.position <;> cases hpl : b.playing <;>
      simp [putActive, hsc, hpos, hpl]
  · intro hplf hsplay
    cases hpos : b.position <;>
      simp [putActive, hsc, hpos, hplf, hsplay, boolTruthy]

/-- Witness for C10: the concrete song-change `PUT` with `playing: false`
on the playing `baseSession` leaves the flag true and nulls the anchor. -/
theorem c10_song_change_ignores_playing_witness :
    (putActive baseSession c10Body 2000000 []).1.playing = true
  ∧ (putActive baseSession c10Body 2000000 []).1.lastPlayStart = none :=
  (c10_song_change_ignores_playing baseSession c10Body 2000000 [] "New Song"
    rfl (by decide)).2 rfl rfl

/-- C3: two successive heartbeat `PUT`s at times `t1` and `t2` on a session
anchored at `t0` advance the stored position by
`⌊(t1-t0)/1000⌋ + ⌊(t2-t1)/1000⌋`: the elapsed time is flushed once per
request and the anchor is moved to the request time, so the total advance
is the total elapsed time to within two seconds of rounding, never twice
the separation. -/
theorem c3_two_heartbeats_advance_once (s : Session) (b : PutBody)
    (t0 t1 t2 : Int)
    (hsong : b.song = none) (hpos : b.position = none)
    (hplay : b.playing = some true) (hsplay : s.playing = true)
    (hanchor : s.lastPlayStart = some t0)
    (h0 : 0 < t0) (h01 : t0 ≤ t1) (h12 : t1 ≤ t2) :
    (putActive (putActive s b t1 []).1 b t2 []).1.songPosition
        = s.songPosition + (t1 - t0).fdiv 1000 + (t2 - t1).fdiv 1000
  ∧ (putActive (putActive s b t1 []).1 b t2 []).1.lastPlayStart = some t2
  ∧ 0 ≤ (putActive (putActive s b t1 []).1 b t2 []).1.songPosition - s.songPosition
  ∧ 1000 * ((putActive (putActive s b t1 []).1 b t2 []).1.songPosition
        - s.songPosition) ≤ t2 - t0
  ∧ t2 - t0 < 1000 * ((putActive (putActive s b t1 []).1 b t2 []).1.songPosition
        - s.songPosition) + 2000 := by
  obtain ⟨p1, a1, g1⟩ :=
    putActive_heartbeat s b t1 t0 hsong hpos hplay hsplay hanchor (by omega)
  obtain ⟨p2, a2, g2⟩ :=
    putActive_heartbeat (putActive s b t1 []).1 b t2 t1 hsong hpos hplay g1 a1 (by omega)
  have hb1 := fdiv1000_bounds (t1 - t0)
  have hb2 := fdiv1000_bounds (t2 - t1)
  have hd1 : 0 ≤ (t1 - t0).fdiv 1000 := Int.fdiv_nonneg (by omega) (by norm_num)
  have hd2 : 0 ≤ (t2 - t1).fdiv 1000 := Int.fdiv_nonneg (by omega) (by norm_num)
  refine ⟨?_, a2, ?_, ?_, ?_⟩ <;> rw [p2, p1] <;> omega

/-- Witness for C3: heartbeats at 5.5s and 11s after the anchor advance the
stored position by 5 + 5 seconds in total and re-anchor to the second
request time. -/
theorem c3_two_heartbeats_advance_once_witness :
    (putActive (putActive baseSession hbBody 1005500 []).1 hbBody 1011000 []).1.songPosition
        = baseSession.songPosition
          + ((1005500 : Int) - 1000000).fdiv 1000 + ((1011000 : Int) - 1005500).fdiv 1000
  ∧ (putActive (putActive baseSession hbBody 1005500 []).1 hbBody 1011000 []).1.lastPlayStart
        = some 1011000 :=
  ⟨(c3_two_heartbeats_advance_once baseSession hbBody 1000000 1005500 1011000
      rfl rfl rfl rfl rfl (by decide) (by decide) (by decide)).1,
   (c3_two_heartbeats_advance_once baseSession hbBody 1000000 1005500 1011000
      rfl rfl rfl rfl rfl (by decide) (by decide) (by decide)).2.1⟩

/-- C2 counterexample: the claim says the reported position is clamped to
the interval [0, songDuration] whenever songDuration is positive. Storing
a negative explicit position through the `PUT` endpoint (no validation,
server.js:318-319) and reading the session back yields position -200 with
duration 180: `Math.min` only clamps from above, there is no lower clamp
at 0. -/
theorem c2_counterexample :
    ((getSession (putSession c2Store [] "abc12345" c2NegBody 2000000).2.1
        "abc12345" 2500000).map (fun r => r.position)) = some (-200)
  ∧ ((getSession (putSession c2Store [] "abc12345" c2NegBody 2000000).2.1
        "abc12345" 2500000).map (fun r => r.duration)) = some 180
  ∧ ((-200 : Int) < 0) :=
  ⟨by decide, by decide, by decide⟩

/-- C2 (amended): `GET /session/:id` reports
`songPosition + ⌊(now − lastPlayStart)/1000⌋` while playing with a truthy
anchor and `songPosition` otherwise, clamped from above by `songDuration`
when the duration is positive; the report lies inside [0, songDuration]
provided the stored position is nonnegative and the anchor is not in the
future, but a negative stored position is reported unclamped. -/
theorem c2_reported_position (s : Session) (now t : Int) :
    (s.playing = false →
        getPosition s now =
          if s.songDuration > 0 then min s.songPosition s.songDuration
          else s.songPosition)
  ∧ (s.playing = true → s.lastPlayStart = some t → t ≠ 0 →
        getPosition s now =
          if s.songDuration > 0 then
            min (s.songPosition + (now - t).fdiv 1000) s.songDuration
          else s.songPosition + (now - t).fdiv 1000)
  ∧ (s.playing = true → s.lastPlayStart = some t → t ≠ 0 →
        0 < s.songDuration → 0 ≤ s.songPosition → t ≤ now →
        0 ≤ getPosition s now ∧ getPosition s now ≤ s.songDuration) := by
  refine ⟨?_, ?_, ?_⟩
  · intro hp
    simp [getPosition, hp]
  · intro hp ha ht
    have hnt : numTruthy (some t) = true := by
      simp [numTruthy, bne_iff_ne, ht]
    simp [getPosition, hp, hnt, ha]
  · intro hp ha ht hd hpos hle
    have hnt : numTruthy (some t) = true := by
      simp [numTruthy, bne_iff_ne, ht]
    have hnn : 0 ≤ (now - t).fdiv 1000 := Int.fdiv_nonneg (by omega) (by norm_num)
    simp only [getPosition, hp, hnt, ha, Bool.and_self, if_true, Option.getD_some]
    rw [if_pos hd]
    exact ⟨le_min (by omega) (by omega), min_le_right _ _⟩

/-- Witness for C2: a playing session anchored in the past with a
nonnegative stored position reports a position inside [0, duration]. -/
theorem c2_reported_position_witness :
    0 ≤ getPosition c2Session 1005500
  ∧ getPosition c2Session 1005500 ≤ c2Session.songDuration :=
  (c2_reported_position c2Session 1005500 1000000).2.2 rfl rfl
    (by decide) (by decide) (by decide) (by decide)

/-- C4: a song-change `PUT` without an explicit position resets the stored
position to 0 and appends one history entry, but the entry playCount is
always 1: `addToHistory` reassigns `history` to the filtered list on
server.js:57 before the `history.find` on server.js:69 runs, so the
previous count (2 here) is never found and the claimed value 3 is never
produced. -/
theorem c4_playcount_not_incremented :
    (putActive baseSession c4Body 2000000 c4Hist).1.songPosition = 0
  ∧ ((putActive baseSession c4Body 2000000 c4Hist).2.map (fun e => e.id))
      = ["bohemian rhapsody-queen"]
  ∧ ((putActive baseSession c4Body 2000000 c4Hist).2.map (fun e => e.playCount))
      = [1]
  ∧ (c4Hist.map (fun e => e.playCount)) = [2] :=
  ⟨by decide, by decide, by decide, by decide⟩

/-- C5 counterexample: the claim lists "connecting", "buffering" (without
the dots), "unknown artist" and any string starting with "loading" as
placeholders, and in particular asserts isPlaceholder("Buffering") = true.
The classifier on auto-launch.js:933-943 only matches the dotted literals
plus "unknown", "advertisement" and "ad", so all of these return false. -/
theorem c5_counterexample :
    isPlaceholder "Buffering" = false
  ∧ isPlaceholder "connecting" = false
  ∧ isPlaceholder "unknown artist" = false
  ∧ isPlaceholder "loading the page" = false :=
  ⟨by decide, by decide, by decide, by decide⟩

/-- C5 (amended): the classifier returns true exactly for the empty string,
for lowercased-trimmed exact matches on the six literals
connecting..., loading..., buffering..., unknown, advertisement, ad, and
for any raw string shorter than two characters; in particular
"Loading..." and "A" are placeholders and "Bohemian Rhapsody" is not. -/
theorem c5_placeholder_characterization (text : String) :
    (isPlaceholder text = true ↔
      text = "" ∨
      jsTrim (jsToLower text) ∈
        (["connecting...", "loading...", "buffering...", "unknown",
          "advertisement", "ad"] : List String) ∨
      text.length < 2)
  ∧ isPlaceholder "Loading..." = true
  ∧ isPlaceholder "A" = true
  ∧ isPlaceholder "Bohemian Rhapsody" = false := by
  refine ⟨?_, by decide, by decide, by decide⟩
  by_cases h : text = ""
  · simp [isPlaceholder, h]
  · simp only [isPlaceholder, beq_iff_eq, h, if_false, List.mem_cons,
      List.not_mem_nil, or_false, Bool.or_eq_true, decide_eq_true_eq]
    tauto

/-- C6 counterexample: the claim says a poll whose reads are all zero
resolves to the cached 200. The payload built by the client `updateSession`
(auto-launch.js:839) sends the single raw read `media.duration || 0`, so a
zero read sends 0, never 200. -/
theorem c6_counterexample :
    (clientUpdatePayload noMeta mediaZeroDuration true).duration = 0
  ∧ ((clientUpdatePayload noMeta mediaZeroDuration true).duration == 200) = false :=
  ⟨rfl, rfl⟩

/-- C6 (amended): on each poll the client sends exactly the current raw
duration read with a `|| 0` default; the sent duration and position are
independent of every metadata global (there is no retry loop, no backoff
and no cached `lastKnownDuration` anywhere in the client state,
auto-launch.js:202-219, 827-855). -/
theorem c6_duration_single_raw_read (meta meta' : CleanedMeta) (m : Media)
    (p p' : Bool) :
    (clientUpdatePayload meta m p).duration = intOr0 m.duration
  ∧ (clientUpdatePayload meta m p).duration
      = (clientUpdatePayload meta' m p').duration
  ∧ (clientUpdatePayload meta m p).position = intOr0 m.position :=
  ⟨rfl, rfl, rfl⟩

/-- C7: a loop iteration whose snapshot has an unchanged song id and an
unchanged play state leaves the whole client state, in particular the
published (start, end) pair, untouched; and whenever the iteration
publishes a pair that was not already published, either the song id
changed or the play state transitioned from paused to playing
(auto-launch.js:729-757, 870-906). -/
theorem c7_presence_recompute_gating (st : ClientState) (m : Media)
    (info : AlbumInfo) (cr : Option String) (now : Int) :
    ((m.title == "") = false → isPlaceholder m.title = false →
      songIdOf m = st.lastSongId →
      (m.state == "playing") = st.lastPlayingState →
      loopIter st (some m) info cr now = st)
  ∧ (∀ p, (loopIter st (some m) info cr now).presence = some p →
      st.presence ≠ some p →
      songIdOf m ≠ st.lastSongId ∨
        (st.lastPlayingState = false ∧ (m.state == "playing") = true)) := by
  constructor
  · intro h1 h2 h3 h4
    simp [loopIter, h1, h2, h3, h4]
  · intro p hres hne
    by_cases hv : (!(m.title == "") && !isPlaceholder m.title) = true
    · by_cases hsc : (songIdOf m != st.lastSongId) = true
      · exact Or.inl (bne_iff_ne.mp hsc)
      · rw [Bool.not_eq_true] at hsc
        by_cases hps : ((m.state == "playing") != st.lastPlayingState) = true
        · by_cases hip : (m.state == "playing") = true
          · refine Or.inr ⟨?_, hip⟩
            have hneq := bne_iff_ne.mp hps
            cases hlp : st.lastPlayingState
            · rfl
            · exact absurd (hip.trans hlp.symm) hneq
          · rw [Bool.not_eq_true] at hip
            simp [loopIter, hv, hsc, hps, hip] at hres
            cases hlp : st.lastPlayingState
            · simp [hlp] at hres
              exact absurd hres hne
            · simp [hlp] at hres
        · rw [Bool.not_eq_true] at hps
          simp [loopIter, hv, hsc, hps] at hres
          exact absurd hres hne
    · rw [Bool.not_eq_true] at hv
      by_cases hc : (st.currentSessionId.isSome || st.lastSongId != "") = true
      · simp [loopIter, hv, loopIterNoMedia, hc] at hres
      · rw [Bool.not_eq_true] at hc
        simp [loopIter, hv, loopIterNoMedia, hc] at hres
        exact absurd hres hne

/-- Witness for C7: an iteration on the unchanged Hello snapshot leaves
the tracking state identical, and the state that publishes a new pair for
the same snapshot is in the song-changed case. -/
theorem c7_presence_recompute_gating_witness :
    loopIter stHello (some mediaHello) noInfo none 1000000 = stHello
  ∧ (songIdOf mediaHello ≠ stOther.lastSongId ∨
      (stOther.lastPlayingState = false ∧ (mediaHello.state == "playing") = true)) :=
  ⟨(c7_presence_recompute_gating stHello mediaHello noInfo none 1000000).1
      (by decide) (by decide) (by decide) (by decide),
   (c7_presence_recompute_gating stOther mediaHello noInfo none 1000000).2
      (presenceOf mediaHello 1000000) (by decide) (by decide)⟩

/-- C8 counterexample: the snapshots Hello/Adele and hello/Adele are equal
after lowercase-trim normalization of title and artist, yet their derived
song ids differ (the key on auto-launch.js:681 concatenates the raw
strings), and feeding the second snapshot to a loop that tracks the first
fires the song-changed branch and rewrites `lastSongId`. -/
theorem c8_counterexample :
    jsTrim (jsToLower mediaHello.title) = jsTrim (jsToLower mediaHelloLower.title)
  ∧ jsTrim (jsToLower mediaHello.artist) = jsTrim (jsToLower mediaHelloLower.artist)
  ∧ (songIdOf mediaHello == songIdOf mediaHelloLower) = false
  ∧ ((loopIter stHello (some mediaHelloLower) noInfo none 1000000).lastSongId
      == stHello.lastSongId) = false :=
  ⟨by decide, by decide, by decide, by decide⟩

/-- C8 (amended): two snapshots denote the same track exactly under raw
string equality of title and artist: equal raw fields yield equal song ids
and no song-changed transition, while case or whitespace variants are
distinct identities. -/
theorem c8_track_identity_exact (m1 m2 : Media) (st : ClientState)
    (info : AlbumInfo) (cr : Option String) (now : Int)
    (ht : m1.title = m2.title) (ha : m1.artist = m2.artist) :
    songIdOf m1 = songIdOf m2
  ∧ ((m2.title == "") = false → isPlaceholder m2.title = false →
      st.lastSongId = songIdOf m1 →
      (loopIter st (some m2) info cr now).lastSongId = st.lastSongId) := by
  have hid : songIdOf m1 = songIdOf m2 := by rw [songIdOf, songIdOf, ht, ha]
  refine ⟨hid, ?_⟩
  intro h1 h2 h3
  have hsc : (songIdOf m2 != st.lastSongId) = false := by
    rw [h3, hid]
    simp
  by_cases hps : ((m2.state == "playing") != st.lastPlayingState) = true
  · by_cases hip : (m2.state == "playing") = true
    · simp [loopIter, h1, h2, hsc, hps, hip]
      split <;> rfl
    · rw [Bool.not_eq_true] at hip
      simp [loopIter, h1, h2, hsc, hps, hip]
      split <;> rfl
  · rw [Bool.not_eq_true] at hps
    simp [loopIter, h1, h2, hsc, hps]

/-- Witness for C8: a later snapshot of the same Hello/Adele track keeps
the same song id and does not rewrite `lastSongId`. -/
theorem c8_track_identity_exact_witness :
    songIdOf mediaHello = songIdOf mediaHelloDup
  ∧ (loopIter stHello (some mediaHelloDup) noInfo none 1000000).lastSongId
      = stHello.lastSongId :=
  ⟨(c8_track_identity_exact mediaHello mediaHelloDup stHello noInfo none
      1000000 rfl rfl).1,
   (c8_track_identity_exact mediaHello mediaHelloDup stHello noInfo none
      1000000 rfl rfl).2 (by decide) (by decide) (by decide)⟩

end Livia
